import Mathlib

/-!
Shallow embedding of the capability-driven dispatch and command-translation
core of buttplug-js: the TestDeviceProtocol handlers (src/unnamed/part_000)
and the ButtplugBrowserClient connection bridge
(src/dist/main/src/client/BrowserClient.js).

JavaScript numbers are modelled by `JSNum`: either a finite real or one of
the IEEE special values NaN, +Infinity, -Infinity.  The finite part is an
ideal real (double rounding is not modelled; none of the verified
properties depends on it).  Message fields supplied by callers are finite
reals; the special values only arise inside the linear-command translation,
exactly where the source's arithmetic can produce them (division by a zero
position delta, Math.pow on special arguments).
-/

/-- A JavaScript number: NaN, +Infinity, -Infinity, or a finite value. -/
inductive JSNum where
  | nan : JSNum
  | inf : JSNum
  | ninf : JSNum
  | fin : ℝ → JSNum

/-- JS division `a / b` of finite numbers (`b` is `+0` when zero, which is
the only zero reachable here: the denominator comes from `Math.abs`).
`0/0 = NaN`, `a/0 = ±Infinity` by the sign of `a`, otherwise finite. -/
noncomputable def jsDiv (a b : ℝ) : JSNum :=
  if b = 0 then
    if a = 0 then JSNum.nan else if 0 < a then JSNum.inf else JSNum.ninf
  else JSNum.fin (a / b)

/-- JS `Math.pow(x, -1.05)`.  The exponent is a finite negative non-integer,
so: NaN base gives NaN; `±Infinity` bases give `+0`; base `+0` gives
`+Infinity`; a negative finite base gives NaN; a positive finite base gives
the real power. -/
noncomputable def jsPowNeg105 : JSNum → JSNum
  | JSNum.nan => JSNum.nan
  | JSNum.inf => JSNum.fin 0
  | JSNum.ninf => JSNum.fin 0
  | JSNum.fin x =>
      if x = 0 then JSNum.inf
      else if 0 < x then JSNum.fin (Real.rpow x (-1.05)) else JSNum.nan

/-- JS multiplication by the positive finite constant 25000. -/
def jsMul25000 : JSNum → JSNum
  | JSNum.nan => JSNum.nan
  | JSNum.inf => JSNum.inf
  | JSNum.ninf => JSNum.ninf
  | JSNum.fin x => JSNum.fin (25000 * x)

/-- JS `Math.floor`: NaN and the infinities pass through, finite values are
floored. -/
noncomputable def jsFloor : JSNum → JSNum
  | JSNum.nan => JSNum.nan
  | JSNum.inf => JSNum.inf
  | JSNum.ninf => JSNum.ninf
  | JSNum.fin x => JSNum.fin (⌊x⌋ : ℤ)

/-- JS `Math.max` on two numbers: NaN is contagious, otherwise the larger
with the usual infinity ordering. -/
noncomputable def jsMax : JSNum → JSNum → JSNum
  | JSNum.nan, _ => JSNum.nan
  | _, JSNum.nan => JSNum.nan
  | JSNum.inf, _ => JSNum.inf
  | _, JSNum.inf => JSNum.inf
  | JSNum.ninf, b => b
  | a, JSNum.ninf => a
  | JSNum.fin x, JSNum.fin y => JSNum.fin (max x y)

/-- JS `Math.min` on two numbers: NaN is contagious, otherwise the smaller
with the usual infinity ordering. -/
noncomputable def jsMin : JSNum → JSNum → JSNum
  | JSNum.nan, _ => JSNum.nan
  | _, JSNum.nan => JSNum.nan
  | JSNum.ninf, _ => JSNum.ninf
  | _, JSNum.ninf => JSNum.ninf
  | JSNum.inf, b => b
  | a, JSNum.inf => a
  | JSNum.fin x, JSNum.fin y => JSNum.fin (min x y)

/-- The property of being a finite value inside a closed band. -/
def JSNum.inBand (lo hi : ℝ) : JSNum → Prop
  | JSNum.fin x => lo ≤ x ∧ x ≤ hi
  | _ => False

/-- Message kinds registered in the dispatch table (`MsgFuncs`). -/
inductive MsgKind where
  | stopDeviceCmd
  | singleMotorVibrateCmd
  | vibrateCmd
  | rotateCmd
  | linearCmd
  | fleshlightLaunchFW12Cmd
deriving DecidableEq

/-- Error classes of the message library; only `ERROR_DEVICE` is used by
this core. -/
inductive ErrorClass where
  | ERROR_UNKNOWN
  | ERROR_INIT
  | ERROR_PING
  | ERROR_MSG
  | ERROR_DEVICE
deriving DecidableEq

/-- A handler response: `Messages.Ok(id)` or `Messages.Error(text, class, id)`. -/
inductive Response where
  | ok : ℕ → Response
  | err : String → ErrorClass → ℕ → Response
deriving DecidableEq

/-- Payload of an emitted `vibrate` notification: a bare number
(`emit("vibrate", speed)`) or, reusing the same channel, the rotate record
(`emit("vibrate", \x7bspeed, clockwise\x7d)`). -/
inductive VibratePayload where
  | num : ℝ → VibratePayload
  | rot : ℝ → Bool → VibratePayload

/-- Notifications emitted by the device protocol: the `vibrate` channel and
the `linear` channel (payload `\x7bposition, speed\x7d`). -/
inductive Event where
  | vibrate : VibratePayload → Event
  | linear : ℝ → JSNum → Event

/-- One entry of `VibrateCmd.Speeds`. -/
structure VibrateSubcommand where
  Index : ℕ
  Speed : ℝ

/-- One entry of `RotateCmd.Rotations`. -/
structure RotateSubcommand where
  Speed : ℝ
  Clockwise : Bool

/-- One entry of `LinearCmd.Vectors`. -/
structure VectorSubcommand where
  Duration : ℝ
  Position : ℝ

/-- `Messages.SingleMotorVibrateCmd(speed, deviceIndex, id)`. -/
structure SingleMotorVibrateCmd where
  Speed : ℝ
  DeviceIndex : ℕ
  Id : ℕ

/-- `Messages.VibrateCmd`. -/
structure VibrateCmd where
  Speeds : List VibrateSubcommand
  DeviceIndex : ℕ
  Id : ℕ

/-- `Messages.RotateCmd`. -/
structure RotateCmd where
  Rotations : List RotateSubcommand
  DeviceIndex : ℕ
  Id : ℕ

/-- `Messages.LinearCmd`. -/
structure LinearCmd where
  Vectors : List VectorSubcommand
  DeviceIndex : ℕ
  Id : ℕ

/-- `Messages.FleshlightLaunchFW12Cmd(speed, position, deviceIndex, id)`.
The speed field is a `JSNum` because the `LinearCmd` funnel can feed it a
special value. -/
structure FleshlightLaunchFW12Cmd where
  Speed : JSNum
  Position : ℝ
  DeviceIndex : ℕ
  Id : ℕ

/-- The three capability flags fixed at construction. -/
structure Caps where
  vibrate : Bool
  linear : Bool
  rotate : Bool
deriving DecidableEq

/-- Membership of the dispatch table built by the constructor:
`StopDeviceCmd` always; `SingleMotorVibrateCmd` and `VibrateCmd` iff the
vibrate flag; `FleshlightLaunchFW12Cmd` and `LinearCmd` iff the linear
flag; `RotateCmd` iff the rotate flag (source lines 37-54). -/
def registered (c : Caps) : MsgKind → Bool
  | MsgKind.stopDeviceCmd => true
  | MsgKind.singleMotorVibrateCmd => c.vibrate
  | MsgKind.vibrateCmd => c.vibrate
  | MsgKind.fleshlightLaunchFW12Cmd => c.linear
  | MsgKind.linearCmd => c.linear
  | MsgKind.rotateCmd => c.rotate

/-- The mutable per-device motion state (`_linearSpeed`, `_linearPosition`,
`_vibrateSpeed`, `_rotateSpeed`, `_rotateClockwise`). -/
structure MotionState where
  linearSpeed : JSNum
  linearPosition : ℝ
  vibrateSpeed : ℝ
  rotateSpeed : ℝ
  rotateClockwise : Bool

/-- The field initializers of the class (all zero / false). -/
def initMotionState : MotionState :=
  { linearSpeed := JSNum.fin 0, linearPosition := 0, vibrateSpeed := 0,
    rotateSpeed := 0, rotateClockwise := false }

/-- One entry of the `MessageSpecifications` object: a message kind with an
optional `FeatureCount`. -/
structure SpecEntry where
  kind : MsgKind
  featureCount : Option ℕ
deriving DecidableEq

/-- The `MessageSpecifications` getter (source lines 57-77): branches on
dispatch-table membership with priority vibrate, then linear, then rotate. -/
def MessageSpecifications (c : Caps) : List SpecEntry :=
  if registered c MsgKind.vibrateCmd then
    [⟨MsgKind.vibrateCmd, some 2⟩, ⟨MsgKind.singleMotorVibrateCmd, none⟩,
     ⟨MsgKind.stopDeviceCmd, none⟩]
  else if registered c MsgKind.linearCmd then
    [⟨MsgKind.linearCmd, some 1⟩, ⟨MsgKind.fleshlightLaunchFW12Cmd, none⟩,
     ⟨MsgKind.stopDeviceCmd, none⟩]
  else if registered c MsgKind.rotateCmd then
    [⟨MsgKind.rotateCmd, some 1⟩, ⟨MsgKind.stopDeviceCmd, none⟩]
  else []

/-- A runtime fault of the JavaScript engine: reading a property of
`undefined`, as happens when `Speeds[0].Speed` or `Rotations[0].Speed` is
evaluated on an empty sequence.  It rejects the handler's promise instead
of producing a response message. -/
inductive JsFault where
  | undefinedFieldAccess : JsFault
deriving DecidableEq

/-- The error text of the single-vector check in `HandleLinearCmd`. -/
def linearCmdErrText : String := "LinearCmd requires 1 vector for this device."

/-- `HandleStopDeviceCmd` (source lines 79-87): emits a `vibrate 0`
notification if `VibrateCmd` is in the dispatch table, else a `linear`
notification with the current position and speed if `LinearCmd` is, else
nothing; always answers `Ok(Id)`.  The motion state is returned untouched:
the source never writes any `_` field here. -/
def HandleStopDeviceCmd (c : Caps) (s : MotionState) (id : ℕ) :
    MotionState × List Event × Response :=
  if registered c MsgKind.vibrateCmd then
    (s, [Event.vibrate (VibratePayload.num 0)], Response.ok id)
  else if registered c MsgKind.linearCmd then
    (s, [Event.linear s.linearPosition s.linearSpeed], Response.ok id)
  else (s, [], Response.ok id)

/-- `HandleSingleMotorVibrateCmd` (source lines 89-94): stores the speed,
emits it on the `vibrate` channel, answers `Ok(Id)`. -/
def HandleSingleMotorVibrateCmd (s : MotionState) (msg : SingleMotorVibrateCmd) :
    MotionState × List Event × Response :=
  ({ s with vibrateSpeed := msg.Speed },
   [Event.vibrate (VibratePayload.num msg.Speed)], Response.ok msg.Id)

/-- `HandleVibrateCmd` (source lines 96-101): forwards
`Speeds[0].Speed` into a synthetic `SingleMotorVibrateCmd` with the same
`DeviceIndex` and `Id`.  On an empty `Speeds` array the unguarded
`Speeds[0].Speed` access faults. -/
def HandleVibrateCmd (s : MotionState) (msg : VibrateCmd) :
    Except JsFault (MotionState × List Event × Response) :=
  match msg.Speeds with
  | [] => Except.error JsFault.undefinedFieldAccess
  | v :: _ =>
      Except.ok (HandleSingleMotorVibrateCmd s ⟨v.Speed, msg.DeviceIndex, msg.Id⟩)

/-- `HandleRotateCmd` (source lines 103-110): stores speed and direction of
`Rotations[0]` and emits them, reusing the `vibrate` channel with a record
payload.  On an empty `Rotations` array the unguarded `Rotations[0].Speed`
access faults. -/
def HandleRotateCmd (s : MotionState) (msg : RotateCmd) :
    Except JsFault (MotionState × List Event × Response) :=
  match msg.Rotations with
  | [] => Except.error JsFault.undefinedFieldAccess
  | r :: _ =>
      Except.ok
        ({ s with rotateSpeed := r.Speed, rotateClockwise := r.Clockwise },
         [Event.vibrate (VibratePayload.rot r.Speed r.Clockwise)],
         Response.ok msg.Id)

/-- `HandleFleshlightLaunchFW12Cmd` (source lines 112-119): stores position
and speed, emits them on the `linear` channel, answers `Ok(Id)`.  All
linear translation funnels into this terminal handler. -/
def HandleFleshlightLaunchFW12Cmd (s : MotionState) (msg : FleshlightLaunchFW12Cmd) :
    MotionState × List Event × Response :=
  ({ s with linearPosition := msg.Position, linearSpeed := msg.Speed },
   [Event.linear msg.Position msg.Speed], Response.ok msg.Id)

/-- The numeric translation of `HandleLinearCmd` (source lines 130-139),
as a pure function of the last known position and the single vector:
`range = 90`, `currentPosition = Position * 100`,
`positionDelta = Math.abs(currentPosition - _linearPosition)`,
`speed = Math.floor(25000 * Math.pow(Duration * 90 / positionDelta, -1.05))`
clamped by `Math.min(Math.max(speed, 0), 95)`, and
`positionGoal = Math.floor(currentPosition / 99 * range + (99 - range) / 2)`. -/
noncomputable def translateLinear (lastKnownPosition : ℝ) (vector : VectorSubcommand) :
    JSNum × ℝ :=
  let range : ℝ := 90
  let currentPosition : ℝ := vector.Position * 100
  let positionDelta : ℝ := |currentPosition - lastKnownPosition|
  let speedRaw : JSNum :=
    jsFloor (jsMul25000 (jsPowNeg105 (jsDiv (vector.Duration * 90) positionDelta)))
  let speed : JSNum := jsMin (jsMax speedRaw (JSNum.fin 0)) (JSNum.fin 95)
  let positionGoal : ℝ := (⌊currentPosition / 99 * range + (99 - range) / 2⌋ : ℤ)
  (speed, positionGoal)

/-- `HandleLinearCmd` (source lines 121-146): answers a device-class
`Error` when the vector count differs from 1, otherwise translates the
single vector and forwards a synthetic `FleshlightLaunchFW12Cmd` with the
same `DeviceIndex` and `Id`. -/
noncomputable def HandleLinearCmd (s : MotionState) (msg : LinearCmd) :
    MotionState × List Event × Response :=
  match msg.Vectors with
  | [vector] =>
      let p := translateLinear s.linearPosition vector
      HandleFleshlightLaunchFW12Cmd s ⟨p.1, p.2, msg.DeviceIndex, msg.Id⟩
  | _ => (s, [], Response.err linearCmdErrText ErrorClass.ERROR_DEVICE msg.Id)

/-- The documented CommandTranslator algorithm, written from the
specification's formula (spec section 4.2) under the same JavaScript number
semantics:
`currentPosition = targetPositionNormalized * 100`,
`positionDelta = |currentPosition - lastKnownPosition|`,
`speed = floor(25000 * ((duration_ms * 90 / positionDelta) ^ -1.05))`,
`speed = clamp(speed, 0, 95)`,
`positionGoal = floor((currentPosition / 99) * 90 + 4.5)`. -/
noncomputable def specCommandTranslator
    (duration_ms targetPositionNormalized lastKnownPosition : ℝ) : JSNum × ℝ :=
  let currentPosition : ℝ := targetPositionNormalized * 100
  let positionDelta : ℝ := |currentPosition - lastKnownPosition|
  let speedRaw : JSNum :=
    jsFloor (jsMul25000 (jsPowNeg105 (jsDiv (duration_ms * 90) positionDelta)))
  let speed : JSNum := jsMin (jsMax speedRaw (JSNum.fin 0)) (JSNum.fin 95)
  let positionGoal : ℝ := (⌊currentPosition / 99 * 90 + 4.5⌋ : ℤ)
  (speed, positionGoal)

/-- Errors of the client bridge; `notConnected` is the synchronous
`Error("ButtplugClient not connected")` thrown by `Send`. -/
inductive BridgeError where
  | notConnected : BridgeError
deriving DecidableEq

/-- Notifications emitted by the bridge; the source emits `close` on
disconnect. -/
inductive BridgeEvent where
  | close : BridgeEvent
deriving DecidableEq

/-- Connection state of `ButtplugBrowserClient`: the `_connected` flag and
the `_server` reference (the processor, modelled as an opaque token that is
either `null` or an object). -/
structure BridgeState where
  connected : Bool
  server : Option Unit
deriving DecidableEq

/-- `Disconnect` (BrowserClient.js lines 72-79): returns immediately when
not connected, otherwise clears `_connected` and `_server` and emits one
`close` notification. -/
def Disconnect (st : BridgeState) : BridgeState × List BridgeEvent :=
  if !st.connected then (st, [])
  else ({ connected := false, server := none }, [BridgeEvent.close])

/-- `Send` (BrowserClient.js lines 80-95): fails with the not-connected
error before anything reaches the processor when `Connected` is false;
otherwise forwards the message to the processor `proc` and feeds the one
returned message to `ParseMessages`.  The processor is a parameter, so the
disconnected branch is provably independent of it. -/
def Send {α β : Type} (proc : α → β) (st : BridgeState) (msg : α) :
    Except BridgeError (BridgeState × List β) :=
  if !st.connected then Except.error BridgeError.notConnected
  else Except.ok (st, [proc msg])

/-- Claim C5 (confirmed): a `LinearCmd` whose vector count differs from 1
yields a device-class `Error` response carrying the request's `Id`, without
throwing, and leaves every field of the motion state unchanged (the state
is returned as-is and no event is emitted). -/
theorem linearCmd_vector_count_error (s : MotionState) (msg : LinearCmd)
    (h : msg.Vectors.length ≠ 1) :
    HandleLinearCmd s msg =
      (s, [], Response.err linearCmdErrText ErrorClass.ERROR_DEVICE msg.Id) := by
  rcases msg with ⟨vs, di, id⟩
  cases vs with
  | nil => rfl
  | cons a t =>
    cases t with
    | nil => exact absurd rfl h
    | cons b t2 => rfl

/-- Witness for C5 at a concrete two-vector command. -/
theorem linearCmd_vector_count_error_witness :
    ((⟨[⟨500, 0.5⟩, ⟨200, 0.2⟩], 0, 3⟩ : LinearCmd).Vectors.length ≠ 1) ∧
    HandleLinearCmd initMotionState ⟨[⟨500, 0.5⟩, ⟨200, 0.2⟩], 0, 3⟩ =
      (initMotionState, [], Response.err linearCmdErrText ErrorClass.ERROR_DEVICE 3) :=
  ⟨by simp, linearCmd_vector_count_error initMotionState _ (by simp)⟩

/-- Claim C6 (confirmed): a `VibrateCmd` with a non-empty speed list is
handled by forwarding exactly the first entry's speed as a synthetic
`SingleMotorVibrateCmd` with the same `DeviceIndex` and `Id`; the stored
vibrate speed becomes that first speed, the remaining entries have no
effect, and the result is whatever the forwarded handler returns. -/
theorem vibrateCmd_first_entry_only (s : MotionState) (msg : VibrateCmd)
    (v : VibrateSubcommand) (rest : List VibrateSubcommand)
    (h : msg.Speeds = v :: rest) :
    HandleVibrateCmd s msg =
      Except.ok (HandleSingleMotorVibrateCmd s ⟨v.Speed, msg.DeviceIndex, msg.Id⟩) ∧
    (HandleSingleMotorVibrateCmd s ⟨v.Speed, msg.DeviceIndex, msg.Id⟩).1.vibrateSpeed
      = v.Speed ∧
    HandleVibrateCmd s msg = HandleVibrateCmd s { msg with Speeds := [v] } := by
  rcases msg with ⟨sp, di, id⟩
  have h2 : sp = v :: rest := h
  subst h2
  exact ⟨rfl, rfl, rfl⟩

/-- Witness for C6 at `Speeds = [(0, 0.3), (1, 0.9)]`. -/
theorem vibrateCmd_first_entry_only_witness :
    ((⟨[⟨0, 0.3⟩, ⟨1, 0.9⟩], 0, 2⟩ : VibrateCmd).Speeds = ⟨0, 0.3⟩ :: [⟨1, 0.9⟩]) ∧
    (HandleSingleMotorVibrateCmd initMotionState ⟨(0.3 : ℝ), 0, 2⟩).1.vibrateSpeed
      = (0.3 : ℝ) :=
  ⟨rfl,
   (vibrateCmd_first_entry_only initMotionState ⟨[⟨0, 0.3⟩, ⟨1, 0.9⟩], 0, 2⟩
      ⟨0, 0.3⟩ [⟨1, 0.9⟩] rfl).2.1⟩

/-- Claim C7 (confirmed): for every combination of capability flags the
`MessageSpecifications` getter returns exactly one set, chosen with
priority vibrate over linear over rotate, with the feature counts 2, 1 and
1, and the empty set when no capability is registered. -/
theorem messageSpecifications_priority (c : Caps) :
    (c.vibrate = true →
      MessageSpecifications c =
        [⟨MsgKind.vibrateCmd, some 2⟩, ⟨MsgKind.singleMotorVibrateCmd, none⟩,
         ⟨MsgKind.stopDeviceCmd, none⟩]) ∧
    (c.vibrate = false → c.linear = true →
      MessageSpecifications c =
        [⟨MsgKind.linearCmd, some 1⟩, ⟨MsgKind.fleshlightLaunchFW12Cmd, none⟩,
         ⟨MsgKind.stopDeviceCmd, none⟩]) ∧
    (c.vibrate = false → c.linear = false → c.rotate = true →
      MessageSpecifications c =
        [⟨MsgKind.rotateCmd, some 1⟩, ⟨MsgKind.stopDeviceCmd, none⟩]) ∧
    (c.vibrate = false → c.linear = false → c.rotate = false →
      MessageSpecifications c = []) := by
  rcases c with ⟨v, l, r⟩
  cases v <;> cases l <;> cases r <;>
    simp [MessageSpecifications, registered]

/-- Witness for C7 at the vibrate-only flag combination. -/
theorem messageSpecifications_priority_witness :
    ((⟨true, false, false⟩ : Caps).vibrate = true) ∧
    MessageSpecifications ⟨true, false, false⟩ =
      [⟨MsgKind.vibrateCmd, some 2⟩, ⟨MsgKind.singleMotorVibrateCmd, none⟩,
       ⟨MsgKind.stopDeviceCmd, none⟩] :=
  ⟨rfl, (messageSpecifications_priority ⟨true, false, false⟩).1 rfl⟩

/-- Claim C8 (confirmed): `Send` on a disconnected bridge fails with the
not-connected error; the result is an error carrying no successor state
(so the caller's state is untouched) and is the same for every processor,
so nothing is forwarded to the processor. -/
theorem send_disconnected_error {α β : Type} (proc : α → β) (st : BridgeState)
    (msg : α) (h : st.connected = false) :
    Send proc st msg = Except.error BridgeError.notConnected := by
  simp [Send, h]

/-- Witness for C8 on a concrete disconnected bridge. -/
theorem send_disconnected_error_witness :
    ((⟨false, none⟩ : BridgeState).connected = false) ∧
    Send (fun n : ℕ => n) ⟨false, none⟩ 5 = Except.error BridgeError.notConnected :=
  ⟨rfl, send_disconnected_error (fun n : ℕ => n) ⟨false, none⟩ 5 rfl⟩

/-- Claim C9 (confirmed): `Disconnect` on a connected bridge clears the
connection flag and the processor reference and emits exactly one `close`
notification; on a disconnected bridge it returns the state untouched and
emits nothing; hence two consecutive calls starting from a connected
bridge emit the notification exactly once. -/
theorem disconnect_idempotent (st : BridgeState) :
    (st.connected = true →
      Disconnect st = (⟨false, none⟩, [BridgeEvent.close])) ∧
    (st.connected = false → Disconnect st = (st, [])) ∧
    (st.connected = true →
      (Disconnect st).2 ++ (Disconnect (Disconnect st).1).2 = [BridgeEvent.close]) := by
  rcases st with ⟨c, srv⟩
  cases c <;> simp [Disconnect]

/-- Witness for C9 on a concrete connected bridge. -/
theorem disconnect_idempotent_witness :
    ((⟨true, some ()⟩ : BridgeState).connected = true) ∧
    (Disconnect ⟨true, some ()⟩).2 ++
      (Disconnect (Disconnect ⟨true, some ()⟩).1).2 = [BridgeEvent.close] :=
  ⟨rfl, (disconnect_idempotent ⟨true, some ()⟩).2.2 rfl⟩

/-- Claim C10 (confirmed): a `VibrateCmd` with an empty `Speeds` sequence
and a `RotateCmd` with an empty `Rotations` sequence are not answered with
an `Ok` or `Error` response: the unguarded first-element access faults, so
the handler rejects with a runtime fault instead. -/
theorem empty_sequence_faults (s : MotionState) (mv : VibrateCmd) (mr : RotateCmd)
    (hv : mv.Speeds = []) (hr : mr.Rotations = []) :
    HandleVibrateCmd s mv = Except.error JsFault.undefinedFieldAccess ∧
    HandleRotateCmd s mr = Except.error JsFault.undefinedFieldAccess := by
  rcases mv with ⟨sp, dv, iv⟩
  rcases mr with ⟨ro, dr, ir⟩
  have h2 : sp = [] := hv
  have h3 : ro = [] := hr
  subst h2
  subst h3
  exact ⟨rfl, rfl⟩

/-- Witness for C10 at concrete empty-sequence commands. -/
theorem empty_sequence_faults_witness :
    ((⟨[], 0, 4⟩ : VibrateCmd).Speeds = []) ∧
    ((⟨[], 0, 5⟩ : RotateCmd).Rotations = []) ∧
    HandleVibrateCmd initMotionState ⟨[], 0, 4⟩
      = Except.error JsFault.undefinedFieldAccess ∧
    HandleRotateCmd initMotionState ⟨[], 0, 5⟩
      = Except.error JsFault.undefinedFieldAccess :=
  ⟨rfl, rfl, empty_sequence_faults initMotionState ⟨[], 0, 4⟩ ⟨[], 0, 5⟩ rfl rfl⟩

/-- Claim C4 counterexample: with the vibrate capability registered and a
stored vibrate speed of 0.5, `HandleStopDeviceCmd` leaves the stored speed
at 0.5 — it does not set it to 0 as the claim states. -/
theorem stopDeviceCmd_vibrateSpeed_counterexample :
    (HandleStopDeviceCmd ⟨true, false, false⟩
        { linearSpeed := JSNum.fin 0, linearPosition := 0, vibrateSpeed := 0.5,
          rotateSpeed := 0, rotateClockwise := false } 1).1.vibrateSpeed = 0.5 ∧
    ¬ ((0.5 : ℝ) = 0) :=
  ⟨rfl, by norm_num⟩

/-- Claim C4 (corrected): on a device with the vibrate capability
registered, `HandleStopDeviceCmd` emits a `vibrate` notification carrying 0
and answers `Ok` with the request's `Id`, but leaves the whole motion
state — including the stored vibrate speed — unchanged. -/
theorem stopDeviceCmd_vibrate_amended (c : Caps) (s : MotionState) (id : ℕ)
    (h : registered c MsgKind.vibrateCmd = true) :
    HandleStopDeviceCmd c s id =
      (s, [Event.vibrate (VibratePayload.num 0)], Response.ok id) := by
  simp [HandleStopDeviceCmd, h]

/-- Witness for the amended C4 on a concrete vibrate-only device. -/
theorem stopDeviceCmd_vibrate_amended_witness :
    (registered ⟨true, false, false⟩ MsgKind.vibrateCmd = true) ∧
    HandleStopDeviceCmd ⟨true, false, false⟩ initMotionState 1 =
      (initMotionState, [Event.vibrate (VibratePayload.num 0)], Response.ok 1) :=
  ⟨rfl, stopDeviceCmd_vibrate_amended ⟨true, false, false⟩ initMotionState 1 rfl⟩

/-- The clamp `Math.min(Math.max(a, 0), 95)` lands in `[0, 95]` for every
non-NaN input. -/
lemma clamp_inBand (a : JSNum) (h : a ≠ JSNum.nan) :
    JSNum.inBand 0 95 (jsMin (jsMax a (JSNum.fin 0)) (JSNum.fin 95)) := by
  cases a with
  | nan => exact absurd rfl h
  | inf =>
      show JSNum.inBand 0 95 (JSNum.fin 95)
      exact ⟨by norm_num, le_refl _⟩
  | ninf =>
      show JSNum.inBand 0 95 (JSNum.fin (min 0 95))
      rw [min_eq_left (by norm_num : (0 : ℝ) ≤ 95)]
      exact ⟨le_refl _, by norm_num⟩
  | fin x =>
      show JSNum.inBand 0 95 (JSNum.fin (min (max x 0) 95))
      exact ⟨le_min (le_max_right x 0) (by norm_num), min_le_right _ _⟩

/-- The raw speed `Math.floor(25000 * Math.pow(num / d, -1.05))` is never
NaN when the numerator is nonnegative, the denominator is nonnegative, and
they are not both zero. -/
lemma speedRaw_ne_nan (num d : ℝ) (hd : 0 ≤ d) (hnum : 0 ≤ num)
    (hz : ¬ (num = 0 ∧ d = 0)) :
    jsFloor (jsMul25000 (jsPowNeg105 (jsDiv num d))) ≠ JSNum.nan := by
  by_cases h0 : d = 0
  · have hn0 : num ≠ 0 := fun h => hz ⟨h, h0⟩
    have hp : 0 < num := lt_of_le_of_ne hnum (Ne.symm hn0)
    rw [jsDiv, if_pos h0, if_neg hn0, if_pos hp]
    simp [jsPowNeg105, jsMul25000, jsFloor]
  · rw [jsDiv, if_neg h0]
    by_cases hq : num / d = 0
    · simp only [jsPowNeg105]
      rw [if_pos hq]
      simp [jsMul25000, jsFloor]
    · have hqpos : 0 < num / d :=
        lt_of_le_of_ne (div_nonneg hnum hd) (Ne.symm hq)
      simp only [jsPowNeg105]
      rw [if_neg hq, if_pos hqpos]
      simp [jsMul25000, jsFloor]

/-- The translated speed of `translateLinear` is a finite value in
`[0, 95]` whenever the duration is nonnegative and duration and position
delta are not both zero. -/
lemma translateLinear_speed_inBand (lkp : ℝ) (v : VectorSubcommand)
    (hD : 0 ≤ v.Duration)
    (hz : ¬ (v.Duration = 0 ∧ |v.Position * 100 - lkp| = 0)) :
    JSNum.inBand 0 95 (translateLinear lkp v).1 := by
  have hnum : 0 ≤ v.Duration * 90 := mul_nonneg hD (by norm_num)
  have habs : (0 : ℝ) ≤ |v.Position * 100 - lkp| := abs_nonneg _
  have hz2 : ¬ (v.Duration * 90 = 0 ∧ |v.Position * 100 - lkp| = 0) := by
    rintro ⟨h1, h2⟩
    rcases mul_eq_zero.mp h1 with h | h
    · exact hz ⟨h, h2⟩
    · norm_num at h
  exact clamp_inBand _ (speedRaw_ne_nan (v.Duration * 90) _ habs hnum hz2)

/-- The translated position goal of `translateLinear` is an integer in
`[4, 95]` for a normalized position in `[0, 1]`. -/
lemma translateLinear_goal_band (lkp : ℝ) (v : VectorSubcommand)
    (h0 : 0 ≤ v.Position) (h1 : v.Position ≤ 1) :
    (4 : ℝ) ≤ (translateLinear lkp v).2 ∧ (translateLinear lkp v).2 ≤ 95 := by
  have hcp0 : (0 : ℝ) ≤ v.Position * 100 := by nlinarith
  have hcp1 : v.Position * 100 ≤ 100 := by nlinarith
  have hgoal : (translateLinear lkp v).2 =
      ((⌊v.Position * 100 / 99 * 90 + (99 - 90) / 2⌋ : ℤ) : ℝ) := rfl
  rw [hgoal]
  have hdiv0 : (0 : ℝ) ≤ v.Position * 100 / 99 * 90 := by positivity
  have hlow : (4.5 : ℝ) ≤ v.Position * 100 / 99 * 90 + (99 - 90) / 2 := by
    linarith
  have hmul : v.Position * 100 * 90 / 99 < 91.5 := by
    rw [div_lt_iff₀ (by norm_num : (0 : ℝ) < 99)]
    nlinarith
  have hhigh : v.Position * 100 / 99 * 90 + (99 - 90) / 2 < 96 := by
    rw [div_mul_eq_mul_div]
    linarith
  constructor
  · have h4 : (4 : ℤ) ≤ ⌊v.Position * 100 / 99 * 90 + (99 - 90) / 2⌋ := by
      apply Int.le_floor.mpr
      push_cast
      linarith
    exact_mod_cast h4
  · have h95 : ⌊v.Position * 100 / 99 * 90 + (99 - 90) / 2⌋ < 96 := by
      apply Int.floor_lt.mpr
      push_cast
      linarith
    have h95b : ⌊v.Position * 100 / 99 * 90 + (99 - 90) / 2⌋ ≤ 95 := by omega
    exact_mod_cast h95b

/-- Claim C1 counterexample: the band `[0,95] x [4.5,94.5]` does not hold
over the whole claimed domain.  At `Duration = 0`, `Position = 0` from
`linearPosition = 0` the computed speed is NaN (the formula divides 0 by 0),
and the position goal is 4, outside `[4.5, 94.5]`; at `Position = 1`,
`Duration = 500` the position goal is 95, also outside `[4.5, 94.5]`. -/
theorem linearCmd_band_counterexample :
    (HandleLinearCmd initMotionState ⟨[⟨0, 0⟩], 0, 1⟩).1.linearSpeed = JSNum.nan ∧
    (HandleLinearCmd initMotionState ⟨[⟨0, 0⟩], 0, 1⟩).1.linearPosition = 4 ∧
    ¬ ((4.5 : ℝ) ≤ 4) ∧
    (HandleLinearCmd initMotionState ⟨[⟨500, 1⟩], 0, 2⟩).1.linearPosition = 95 ∧
    ¬ ((95 : ℝ) ≤ 94.5) := by
  refine ⟨?_, ?_, by norm_num, ?_, by norm_num⟩
  · show (translateLinear initMotionState.linearPosition ⟨0, 0⟩).1 = JSNum.nan
    norm_num [translateLinear, initMotionState, jsDiv, jsPowNeg105, jsMul25000,
      jsFloor, jsMax, jsMin]
  · show (translateLinear initMotionState.linearPosition ⟨0, 0⟩).2 = 4
    norm_num [translateLinear, initMotionState]
  · show (translateLinear initMotionState.linearPosition ⟨500, 1⟩).2 = 95
    norm_num [translateLinear, initMotionState]

/-- Claim C1 (corrected): for a `LinearCmd` with exactly one vector,
`Position` in `[0,1]` and prior `linearPosition` in `[0,99]`, the hard
safety bound that actually holds is: the translated speed is a finite
value in `[0,95]` provided the duration is nonnegative and duration and
position delta are not both zero (at `Duration = 0` with zero delta the
speed is NaN), and the position goal is an integer in `[4,95]` — the
flooring exits the claimed band `[4.5, 94.5]` at both ends. -/
theorem linearCmd_band_amended (s : MotionState) (msg : LinearCmd)
    (v : VectorSubcommand) (hv : msg.Vectors = [v])
    (hP0 : 0 ≤ v.Position) (hP1 : v.Position ≤ 1)
    (hL0 : 0 ≤ s.linearPosition) (hL1 : s.linearPosition ≤ 99)
    (hD : 0 ≤ v.Duration)
    (hz : ¬ (v.Duration = 0 ∧ |v.Position * 100 - s.linearPosition| = 0)) :
    JSNum.inBand 0 95 (HandleLinearCmd s msg).1.linearSpeed ∧
    (4 : ℝ) ≤ (HandleLinearCmd s msg).1.linearPosition ∧
    (HandleLinearCmd s msg).1.linearPosition ≤ 95 := by
  rcases msg with ⟨vs, di, id⟩
  have hv2 : vs = [v] := hv
  subst hv2
  refine ⟨?_, ?_, ?_⟩
  · show JSNum.inBand 0 95 (translateLinear s.linearPosition v).1
    exact translateLinear_speed_inBand s.linearPosition v hD hz
  · show (4 : ℝ) ≤ (translateLinear s.linearPosition v).2
    exact (translateLinear_goal_band s.linearPosition v hP0 hP1).1
  · show (translateLinear s.linearPosition v).2 ≤ 95
    exact (translateLinear_goal_band s.linearPosition v hP0 hP1).2

/-- Witness for the amended C1 at `Duration = 500`, `Position = 0.5` from
the initial state. -/
theorem linearCmd_band_amended_witness :
    ((0 : ℝ) ≤ 0.5 ∧ (0.5 : ℝ) ≤ 1 ∧ (0 : ℝ) ≤ 500) ∧
    JSNum.inBand 0 95
      (HandleLinearCmd initMotionState ⟨[⟨500, 0.5⟩], 0, 6⟩).1.linearSpeed ∧
    (4 : ℝ) ≤ (HandleLinearCmd initMotionState ⟨[⟨500, 0.5⟩], 0, 6⟩).1.linearPosition ∧
    (HandleLinearCmd initMotionState ⟨[⟨500, 0.5⟩], 0, 6⟩).1.linearPosition ≤ 95 :=
  ⟨by norm_num,
   linearCmd_band_amended initMotionState ⟨[⟨500, 0.5⟩], 0, 6⟩ ⟨500, 0.5⟩ rfl
     (show (0 : ℝ) ≤ 0.5 by norm_num) (show (0.5 : ℝ) ≤ 1 by norm_num)
     (show (0 : ℝ) ≤ 0 from le_refl 0) (show (0 : ℝ) ≤ 99 by norm_num)
     (show (0 : ℝ) ≤ 500 by norm_num)
     (show ¬ ((500 : ℝ) = 0 ∧ |(0.5 : ℝ) * 100 - 0| = 0) by
        rintro ⟨h, _⟩; norm_num at h)⟩

/-- Claim C2 (confirmed): for a single-vector `LinearCmd` with a nonzero
position delta, the code's translation agrees exactly with the documented
CommandTranslator algorithm, and the handler forwards exactly that pair to
the terminal `FleshlightLaunchFW12Cmd` handler with the caller's
`DeviceIndex` and `Id`. -/
theorem linearCmd_matches_documented_translator (s : MotionState)
    (msg : LinearCmd) (v : VectorSubcommand) (hv : msg.Vectors = [v])
    (hδ : |v.Position * 100 - s.linearPosition| ≠ 0) :
    translateLinear s.linearPosition v =
      specCommandTranslator v.Duration v.Position s.linearPosition ∧
    HandleLinearCmd s msg =
      HandleFleshlightLaunchFW12Cmd s
        ⟨(specCommandTranslator v.Duration v.Position s.linearPosition).1,
         (specCommandTranslator v.Duration v.Position s.linearPosition).2,
         msg.DeviceIndex, msg.Id⟩ := by
  have heq : translateLinear s.linearPosition v =
      specCommandTranslator v.Duration v.Position s.linearPosition := by
    unfold translateLinear specCommandTranslator
    norm_num
  refine ⟨heq, ?_⟩
  rcases msg with ⟨vs, di, id⟩
  have hv2 : vs = [v] := hv
  subst hv2
  show HandleFleshlightLaunchFW12Cmd s
      ⟨(translateLinear s.linearPosition v).1,
       (translateLinear s.linearPosition v).2, di, id⟩ = _
  rw [heq]

/-- Witness for C2 at `Duration = 500`, `Position = 0.5` from the initial
state (position delta 50). -/
theorem linearCmd_matches_documented_translator_witness :
    (|(0.5 : ℝ) * 100 - 0| ≠ 0) ∧
    translateLinear initMotionState.linearPosition ⟨500, 0.5⟩ =
      specCommandTranslator 500 0.5 initMotionState.linearPosition :=
  ⟨by norm_num,
   (linearCmd_matches_documented_translator initMotionState ⟨[⟨500, 0.5⟩], 0, 8⟩
      ⟨500, 0.5⟩ rfl
      (show |(0.5 : ℝ) * 100 - 0| ≠ 0 by norm_num)).1⟩

/-- Claim C3 counterexample: with a zero position delta and `Duration = 0`
the computed speed is NaN (the claim states it is never NaN or infinite):
`0 * 90 / 0` is NaN and NaN propagates through `Math.pow`, `Math.floor`
and the clamp. -/
theorem zero_delta_nan_counterexample :
    (HandleLinearCmd
        { linearSpeed := JSNum.fin 0, linearPosition := 50, vibrateSpeed := 0,
          rotateSpeed := 0, rotateClockwise := false }
        ⟨[⟨0, 0.5⟩], 0, 7⟩).1.linearSpeed = JSNum.nan := by
  show (translateLinear 50 ⟨0, 0.5⟩).1 = JSNum.nan
  norm_num [translateLinear, jsDiv, jsPowNeg105, jsMul25000, jsFloor, jsMax, jsMin]

/-- Claim C3 (corrected): for a single-vector `LinearCmd` whose target
equals the last known position (zero position delta) and whose duration is
nonzero, the handler does not raise and deterministically computes speed 0
(IEEE semantics: the division yields an infinity whose `-1.05` power is 0)
and answers `Ok` with the request's `Id`; this zero-delta outcome is an
implicit consequence of IEEE arithmetic, not an explicit guard, and with
`Duration = 0` the speed is NaN instead. -/
theorem zero_delta_policy_amended (s : MotionState) (msg : LinearCmd)
    (v : VectorSubcommand) (hv : msg.Vectors = [v])
    (hδ : |v.Position * 100 - s.linearPosition| = 0)
    (hD : v.Duration ≠ 0) :
    (HandleLinearCmd s msg).1.linearSpeed = JSNum.fin 0 ∧
    (HandleLinearCmd s msg).2.2 = Response.ok msg.Id := by
  rcases msg with ⟨vs, di, id⟩
  have hv2 : vs = [v] := hv
  subst hv2
  have hnum : v.Duration * 90 ≠ 0 := by
    intro h
    rcases mul_eq_zero.mp h with h | h
    · exact hD h
    · norm_num at h
  have hpow : jsPowNeg105
      (jsDiv (v.Duration * 90) |v.Position * 100 - s.linearPosition|) =
      JSNum.fin 0 := by
    rw [jsDiv, if_pos hδ, if_neg hnum]
    rcases lt_trichotomy v.Duration 0 with hlt | heq | hgt
    · rw [if_neg (by nlinarith : ¬ (0 : ℝ) < v.Duration * 90)]
      rfl
    · exact absurd heq hD
    · rw [if_pos (by nlinarith : (0 : ℝ) < v.Duration * 90)]
      rfl
  constructor
  · show (translateLinear s.linearPosition v).1 = JSNum.fin 0
    show jsMin (jsMax (jsFloor (jsMul25000 (jsPowNeg105
        (jsDiv (v.Duration * 90) |v.Position * 100 - s.linearPosition|))))
        (JSNum.fin 0)) (JSNum.fin 95) = JSNum.fin 0
    rw [hpow]
    norm_num [jsMul25000, jsFloor, jsMax, jsMin]
  · rfl

/-- Witness for the amended C3: target 0.5 from `linearPosition = 50`
(zero delta) with `Duration = 500`. -/
theorem zero_delta_policy_amended_witness :
    (|(0.5 : ℝ) * 100 - 50| = 0 ∧ (500 : ℝ) ≠ 0) ∧
    (HandleLinearCmd
        { linearSpeed := JSNum.fin 0, linearPosition := 50, vibrateSpeed := 0,
          rotateSpeed := 0, rotateClockwise := false }
        ⟨[⟨500, 0.5⟩], 0, 9⟩).1.linearSpeed = JSNum.fin 0 ∧
    (HandleLinearCmd
        { linearSpeed := JSNum.fin 0, linearPosition := 50, vibrateSpeed := 0,
          rotateSpeed := 0, rotateClockwise := false }
        ⟨[⟨500, 0.5⟩], 0, 9⟩).2.2 = Response.ok 9 :=
  ⟨⟨by norm_num, by norm_num⟩,
   zero_delta_policy_amended
     { linearSpeed := JSNum.fin 0, linearPosition := 50, vibrateSpeed := 0,
       rotateSpeed := 0, rotateClockwise := false }
     ⟨[⟨500, 0.5⟩], 0, 9⟩ ⟨500, 0.5⟩ rfl
     (show |(0.5 : ℝ) * 100 - 50| = 0 by norm_num)
     (show (500 : ℝ) ≠ 0 by norm_num)⟩
